import Mathlib

/-
  Verification development for the nostrdb-jni native boundary layer
  (crate nostrdb-jni-native: src/error.rs, src/util.rs, src/lib.rs).

  The JNI entry points are shallowly embedded as Lean functions over an
  explicit heap of handle-addressed native objects.  The external embedded
  database engine (the nostrdb crate) is out of scope of the boundary layer
  and is modelled by oracle parameters giving the result of each engine
  call; the JNI runtime's marshaling of a foreign argument is modelled by
  an Except value (error = the JNI-level failure message).
-/

namespace NostrdbJni

/-- Engine-level error, mirroring the nostrdb error cases the boundary code
matches on (NotFound, DbOpenFailed, and a catch-all). -/
inductive NdbError where
  | NotFound
  | DbOpenFailed
  | Other (msg : String)
deriving DecidableEq, Repr

/-- Error type from src/error.rs (enum Error).  The InvalidUtf8 variant
exists in the source but, as the theorems below show, is never produced by
any boundary operation: JNI string marshaling failures arrive as Error::Jni
via the From impl. -/
inductive Error where
  | Jni (msg : String)
  | Nostrdb (e : NdbError)
  | InvalidIdLength (n : Nat)
  | NullPointer (name : String)
  | InvalidUtf8 (msg : String)
  | Json (msg : String)
  | Filter (msg : String)
  | InvalidState (msg : String)
deriving DecidableEq, Repr

/-- Error::exception_class from src/error.rs. -/
def Error.exception_class : Error → String
  | .Jni _ => "java/lang/RuntimeException"
  | .Nostrdb .NotFound => "java/util/NoSuchElementException"
  | .Nostrdb .DbOpenFailed => "java/io/IOException"
  | .Nostrdb (.Other _) => "xyz/tcheeric/nostrdb/NostrdbException"
  | .InvalidIdLength _ => "java/lang/IllegalArgumentException"
  | .NullPointer _ => "java/lang/NullPointerException"
  | .InvalidUtf8 _ => "java/lang/IllegalArgumentException"
  | .Json _ => "xyz/tcheeric/nostrdb/NostrdbException"
  | .Filter _ => "xyz/tcheeric/nostrdb/NostrdbException"
  | .InvalidState _ => "java/lang/IllegalStateException"

/-- One applied transition of the external FilterBuilder.  The engine's
builder is a black box (nostrdb crate); it is modelled freely as the list
of transitions applied so far, which is exactly the information the
boundary layer feeds into it. -/
inductive FilterOp where
  | kinds (ks : List Nat)
  | authors (pks : List (List Nat))
  | tags (values : List String) (key : Char)
  | since (t : Nat)
  | untilTime (t : Nat)
  | limit (n : Nat)
  | search (s : String)
deriving DecidableEq, Repr

/-- State of an engine FilterBuilder: the transitions applied so far. -/
abbrev FilterB := List FilterOp

/-- A native heap object reachable through a jlong handle.  ndb carries the
strong reference count of the Arc (shared ownership, spec section 3);
fbuilder is a FilterBuilder under construction; filterF is a built Filter. -/
inductive Obj where
  | ndb (rc : Nat)
  | txn
  | fbuilder (b : FilterB)
  | filterF (f : FilterB)
deriving DecidableEq, Repr

/-- The native heap: address to object, plus the next fresh address the
allocator will hand out (Box allocation is deterministic in the model). -/
structure Heap where
  objs : Nat → Option Obj
  next : Nat

/-- Remove the object at an address (Box dropped or reclaimed by from_raw). -/
def removeAt (h : Heap) (ptr : Nat) : Heap :=
  { h with objs := fun x => if x = ptr then none else h.objs x }

/-- box_to_ptr from src/util.rs: Box::into_raw(Box::new(value)) as jlong.
Allocates at the next fresh address. -/
def box_to_ptr (h : Heap) (o : Obj) : Nat × Heap :=
  (h.next,
   { objs := fun x => if x = h.next then some o else h.objs x,
     next := h.next + 1 })

/-- Outcome of a native computation: a declared failure (Result::Err),
a caught panic, or undefined behavior (null/stale pointer dereference,
Box::from_raw on an invalid pointer, type-confused cast). -/
inductive Res (α : Type) where
  | ok (a : α)
  | err (e : Error)
  | panicked (msg : String)
  | fault
deriving Repr

def Res.bind {α β : Type} : Res α → (α → Res β) → Res β
  | .ok a, f => f a
  | .err e, _ => .err e
  | .panicked m, _ => .panicked m
  | .fault, _ => .fault

instance : Monad Res where
  pure := Res.ok
  bind := Res.bind

/-- Heap-threading computation: the body of a boundary operation.  On a
declared error the heap at the failure point is kept (work already done,
e.g. a consumed builder, is not undone). -/
def StR (α : Type) := Heap → Res α × Heap

def StR.pure {α : Type} (a : α) : StR α := fun h => (.ok a, h)

def StR.bind {α β : Type} (m : StR α) (f : α → StR β) : StR β := fun h =>
  match m h with
  | (.ok a, h1) => f a h1
  | (.err e, h1) => (.err e, h1)
  | (.panicked m', h1) => (.panicked m', h1)
  | (.fault, h1) => (.fault, h1)

instance : Monad StR where
  pure := StR.pure
  bind := StR.bind

/-- Lift a heap-independent computation. -/
def liftR {α : Type} (r : Res α) : StR α := fun h => (r, h)

/-- What a boundary-callable operation delivers back to the JVM: a return
value together with the pending exception (if one was thrown), or
undefined behavior. -/
inductive Thrown where
  | exc (e : Error)
  | nativePanic (msg : String)
deriving DecidableEq, Repr

inductive BOutcome (α : Type) where
  | ret (v : α) (thrown : Option Thrown)
  | ub
deriving Repr, DecidableEq

/-- with_exception from src/util.rs, over a heap-threading body: an Ok value
is returned as-is, a declared error is thrown as a Java exception and the
default is returned, a caught panic throws the NativePanic wrapper and
returns the default.  Undefined behavior is not caught by catch_unwind. -/
def with_exceptionS {α : Type} (default : α) (body : StR α) (h : Heap) :
    BOutcome α × Heap :=
  match body h with
  | (.ok v, h1) => (.ret v none, h1)
  | (.err e, h1) => (.ret default (some (.exc e)), h1)
  | (.panicked m, h1) =>
      (.ret default (some (.nativePanic ("Native code panicked: " ++ m))), h1)
  | (.fault, h1) => (.ub, h1)

/-- catch_panic from src/util.rs: panics are swallowed (logged only, nothing
is thrown) and the default is returned.  The closures passed to it in the
source never produce a declared error; the err case is mapped like a panic
to keep the function total. -/
def catch_panicS {α : Type} (default : α) (body : StR α) (h : Heap) :
    BOutcome α × Heap :=
  match body h with
  | (.ok v, h1) => (.ret v none, h1)
  | (.err _, h1) => (.ret default none, h1)
  | (.panicked _, h1) => (.ret default none, h1)
  | (.fault, h1) => (.ub, h1)

-- ============================================================================
-- Marshaling helpers (src/util.rs)
-- ============================================================================

/-- A foreign string argument as seen after JNI marshaling: either the
decoded text or the JNI-level failure message. -/
abbrev JStringF := Except String String

/-- A foreign byte-array argument after JNI marshaling. -/
abbrev JBytesF := Except String (List Nat)

/-- java_string_to_rust from src/util.rs: env.get_string(s)? converts a JNI
failure into Error::Jni via the From impl. -/
def java_string_to_rust (s : JStringF) : Res String :=
  match s with
  | .ok str => .ok str
  | .error m => .err (.Jni m)

/-- java_bytes_to_rust from src/util.rs: env.convert_byte_array(arr)?. -/
def java_bytes_to_rust (a : JBytesF) : Res (List Nat) :=
  match a with
  | .ok bs => .ok bs
  | .error m => .err (.Jni m)

/-- java_bytes_to_32 from src/util.rs: length must be exactly 32, otherwise
Error::InvalidIdLength(len). -/
def java_bytes_to_32 (a : JBytesF) : Res (List Nat) := do
  let bytes ← java_bytes_to_rust a
  if bytes.length ≠ 32 then Res.err (.InvalidIdLength bytes.length)
  else pure bytes

/-- ptr_to_ref from src/util.rs: a zero handle fails with
Error::NullPointer(name); a nonzero handle is dereferenced unchecked
(a dangling address is undefined behavior). -/
def ptr_to_ref (h : Heap) (ptr : Nat) (name : String) : Res Obj :=
  if ptr = 0 then .err (.NullPointer name)
  else match h.objs ptr with
    | some o => .ok o
    | none => .fault

/-- ptr_to_mut from src/util.rs: same null check as ptr_to_ref. -/
def ptr_to_mut (h : Heap) (ptr : Nat) (name : String) : Res Obj :=
  if ptr = 0 then .err (.NullPointer name)
  else match h.objs ptr with
    | some o => .ok o
    | none => .fault

def ptr_to_refS (ptr : Nat) (name : String) : StR Obj :=
  fun h => (ptr_to_ref h ptr name, h)

def ptr_to_mutS (ptr : Nat) (name : String) : StR Obj :=
  fun h => (ptr_to_mut h ptr name, h)

/-- The unchecked cast of a dereferenced handle to Arc of Ndb: any other
object type there is type confusion, i.e. undefined behavior.  Yields the
Arc strong count. -/
def asNdb : Obj → Res Nat
  | .ndb rc => .ok rc
  | _ => .fault

/-- The unchecked cast to Transaction. -/
def asTxn : Obj → Res Unit
  | .txn => .ok ()
  | _ => .fault

/-- The unchecked cast to Filter. -/
def asFilter : Obj → Res FilterB
  | .filterF f => .ok f
  | _ => .fault

/-- Box::from_raw(filter_ptr as *mut FilterBuilder) as performed by every
filter transition in src/lib.rs: NO null check; a zero or dangling pointer,
or an object of another type, is undefined behavior.  On success the box is
reclaimed, so the object leaves the heap. -/
def takeBuilder (h : Heap) (ptr : Nat) : Res (FilterB × Heap) :=
  if ptr = 0 then .fault
  else match h.objs ptr with
    | some (.fbuilder b) => .ok (b, removeAt h ptr)
    | _ => .fault

def takeBuilderS (ptr : Nat) : StR FilterB := fun h =>
  match takeBuilder h ptr with
  | .ok (b, h1) => (.ok b, h1)
  | .err e => (.err e, h)
  | .panicked m => (.panicked m, h)
  | .fault => (.fault, h)

def box_to_ptrS (o : Obj) : StR Nat :=
  fun h => let p := box_to_ptr h o; (.ok p.1, p.2)

/-- drop_ptr from src/util.rs: explicitly a no-op on a zero pointer,
otherwise reclaims the box (a dangling pointer would be undefined
behavior). -/
def drop_ptrS (ptr : Nat) : StR Unit := fun h =>
  if ptr = 0 then (.ok (), h)
  else match h.objs ptr with
    | some _ => (.ok (), removeAt h ptr)
    | none => (.fault, h)

-- ============================================================================
-- Integer casts and the wire format (src/lib.rs serialization code)
-- ============================================================================

/-- Rust cast jlong as u64 (two's-complement wrap). -/
def u64_of_jlong (n : Int) : Nat := (n % (2 ^ 64 : Int)).toNat

/-- Rust cast jint as u32 (two's-complement wrap). -/
def u32_of_jint (n : Int) : Nat := (n % (2 ^ 32 : Int)).toNat

/-- Rust cast u64 as jlong (wrap into the signed range). -/
def jlong_of_u64 (n : Nat) : Int :=
  if n % 2 ^ 64 < 2 ^ 63 then (n % 2 ^ 64 : Int) else (n % 2 ^ 64 : Int) - 2 ^ 64

/-- (n as u32).to_le_bytes(): four little-endian bytes (truncating). -/
def u32_to_le_bytes (n : Nat) : List Nat :=
  [n % 256, n / 256 % 256, n / 65536 % 256, n / 16777216 % 256]

/-- u64 to_le_bytes(): eight little-endian bytes (truncating). -/
def u64_to_le_bytes (n : Nat) : List Nat :=
  [n % 256, n / 256 % 256, n / 65536 % 256, n / 16777216 % 256,
   n / 4294967296 % 256, n / 1099511627776 % 256,
   n / 281474976710656 % 256, n / 72057594037927936 % 256]

/-- u32::from_le_bytes on a 4-byte chunk (chunks_exact guarantees the
shape; other shapes are unreachable). -/
def u32_from_le_bytes : List Nat → Nat
  | [b0, b1, b2, b3] => b0 + 256 * b1 + 65536 * b2 + 16777216 * b3
  | _ => 0

/-- Little-endian value of an 8-byte chunk. -/
def u64_from_le_bytes : List Nat → Nat
  | [b0, b1, b2, b3, b4, b5, b6, b7] =>
      b0 + 256 * b1 + 65536 * b2 + 16777216 * b3 + 4294967296 * b4 +
      1099511627776 * b5 + 281474976710656 * b6 + 72057594037927936 * b7
  | _ => 0

/-- slice::chunks_exact(k): the whole k-sized chunks in order; a trailing
partial chunk is omitted. -/
def chunksExact {α : Type} (k : Nat) (l : List α) : List (List α) :=
  if hk : 0 < k then
    if hl : k ≤ l.length then
      l.take k :: chunksExact k (l.drop k)
    else []
  else []
termination_by l.length
decreasing_by simp [List.length_drop]; omega

/-- Decoding of the kinds argument in filterKinds (src/lib.rs):
bytes.chunks_exact(4), each chunk u32::from_le_bytes, as u64. -/
def decodeKinds (bytes : List Nat) : List Nat :=
  (chunksExact 4 bytes).map u32_from_le_bytes

/-- Decoding of the authors argument in filterAuthors (src/lib.rs):
bytes.chunks_exact(32), each chunk a 32-byte pubkey. -/
def decodeAuthors (bytes : List Nat) : List (List Nat) :=
  chunksExact 32 bytes

/-- The key-list wire format built by query and pollForNotes (src/lib.rs):
(len as u32).to_le_bytes() followed by each key's u64 to_le_bytes(). -/
def serializeKeyList (keys : List Nat) : List Nat :=
  u32_to_le_bytes keys.length ++ (keys.map u64_to_le_bytes).flatten

-- ============================================================================
-- Line splitting and trimming (Rust str::lines / str::trim semantics,
-- used by processEvents)
-- ============================================================================

/-- char::is_whitespace from Rust (the Unicode White_Space set). -/
def rustIsWhitespace (c : Char) : Bool :=
  let n := c.toNat
  (0x09 ≤ n && n ≤ 0x0D) || n = 0x20 || n = 0x85 || n = 0xA0 || n = 0x1680 ||
  (0x2000 ≤ n && n ≤ 0x200A) || n = 0x2028 || n = 0x2029 || n = 0x202F ||
  n = 0x205F || n = 0x3000

/-- str::trim from Rust: whitespace stripped from both ends. -/
def rustTrim (s : String) : String :=
  let cs := s.toList.dropWhile rustIsWhitespace
  String.mk ((cs.reverse.dropWhile rustIsWhitespace).reverse)

/-- Split a character list at every newline (segments exclude the
newline). -/
def splitLinesAux : List Char → List Char → List (List Char)
  | [], acc => [acc.reverse]
  | c :: rest, acc =>
      if c = '\n' then acc.reverse :: splitLinesAux rest []
      else splitLinesAux rest (c :: acc)

/-- Strip one trailing carriage return (for a line that was terminated by
a newline, Rust also strips a carriage return just before it). -/
def stripCR (cs : List Char) : List Char :=
  match cs.getLast? with
  | some c => if c = '\r' then cs.dropLast else cs
  | none => cs

/-- str::lines from Rust: split on newline; a final empty segment from a
trailing newline is dropped; a carriage return immediately before a
newline is stripped, but a trailing carriage return on the final
unterminated line is kept. -/
def rustLines (s : String) : List String :=
  let segs := splitLinesAux s.toList []
  (segs.dropLast.map fun cs => String.mk (stripCR cs)) ++
  (match segs.getLast? with
   | some [] => []
   | some cs => [String.mk cs]
   | none => [])

/-- The test line.trim().is_empty() from processEvents. -/
def isBlankLine (l : String) : Bool := rustTrim l == ""

/-- The per-line loop of processEvents (src/lib.rs lines 106-113): blank
lines (empty after trimming) are skipped without touching the engine; each
other line is fed to ndb.process_event, a failing line is skipped silently,
a succeeding line increments the count.  The engine is stateful: step
threads its state sigma through the calls in line order. -/
def processLines {σ : Type} (step : σ → String → Bool × σ) :
    σ → List String → Nat × σ
  | s, [] => (0, s)
  | s, line :: rest =>
      if isBlankLine line then processLines step s rest
      else
        let r := step s line
        let rec' := processLines step r.2 rest
        (if r.1 then rec'.1 + 1 else rec'.1, rec'.2)

/-- Reference run of a batch: the success flag of each engine call, in
order, with the engine state threaded through. -/
def runBatch {σ : Type} (step : σ → String → Bool × σ) :
    σ → List String → List Bool
  | _, [] => []
  | s, line :: rest =>
      let r := step s line
      r.1 :: runBatch step r.2 rest

/-- Element-wise string marshaling of the tag_values array in filterTag:
each element goes through java_string_to_rust, the first failure aborts. -/
def decodeAll : List JStringF → Res (List String)
  | [] => .ok []
  | v :: rest => do
      let s ← java_string_to_rust v
      let ss ← decodeAll rest
      pure (s :: ss)

-- ============================================================================
-- Boundary-callable operations (src/lib.rs)
-- ============================================================================

/-- ndbClose (src/lib.rs): catch_panic_void around drop_ptr on the Ndb
handle. -/
def Java_xyz_tcheeric_nostrdb_NostrdbNative_ndbClose
    (h : Heap) (ndb_ptr : Nat) : BOutcome Unit × Heap :=
  catch_panicS () (drop_ptrS ndb_ptr) h

/-- endTransaction (src/lib.rs): catch_panic_void around drop_ptr on the
Transaction handle. -/
def Java_xyz_tcheeric_nostrdb_NostrdbNative_endTransaction
    (h : Heap) (txn_ptr : Nat) : BOutcome Unit × Heap :=
  catch_panicS () (drop_ptrS txn_ptr) h

/-- filterDestroy (src/lib.rs): catch_panic_void around drop_ptr on the
Filter handle. -/
def Java_xyz_tcheeric_nostrdb_NostrdbNative_filterDestroy
    (h : Heap) (filter_ptr : Nat) : BOutcome Unit × Heap :=
  catch_panicS () (drop_ptrS filter_ptr) h

/-- processEvents (src/lib.rs): default -1; validates the ndb handle,
marshals the newline-delimited string, then runs the per-line loop.
step/s0 are the engine's process_event oracle and initial state. -/
def Java_xyz_tcheeric_nostrdb_NostrdbNative_processEvents {σ : Type}
    (step : σ → String → Bool × σ) (s0 : σ)
    (h : Heap) (ndb_ptr : Nat) (ldjson : JStringF) : BOutcome Int × Heap :=
  with_exceptionS (-1) (do
    let o ← ptr_to_refS ndb_ptr "ndb"
    let _ ← liftR (asNdb o)
    let json_str ← liftR (java_string_to_rust ldjson)
    pure ((processLines step s0 (rustLines json_str)).1 : Int)) h

/-- getNoteById (src/lib.rs): default null; validates ndb and transaction
handles, converts the id with java_bytes_to_32, then matches the engine
result: Ok note is serialized and returned, NotFound returns null with no
exception, any other engine error is raised.  engineGet is the
ndb.get_note_by_id oracle (Ok carries an opaque note token), serNote the
serialize_note oracle (error = serde_json failure message). -/
def Java_xyz_tcheeric_nostrdb_NostrdbNative_getNoteById
    (engineGet : List Nat → Except NdbError Nat)
    (serNote : Nat → Except String (List Nat))
    (h : Heap) (ndb_ptr txn_ptr : Nat) (event_id : JBytesF) :
    BOutcome (Option (List Nat)) × Heap :=
  with_exceptionS none (do
    let o1 ← ptr_to_refS ndb_ptr "ndb"
    let _ ← liftR (asNdb o1)
    let o2 ← ptr_to_refS txn_ptr "transaction"
    let _ ← liftR (asTxn o2)
    let id ← liftR (java_bytes_to_32 event_id)
    match engineGet id with
    | .ok note =>
        match serNote note with
        | .ok json => pure (some json)
        | .error m => liftR (.err (.Json m))
    | .error .NotFound => pure none
    | .error e => liftR (.err (.Nostrdb e))) h

/-- getNoteByKey (src/lib.rs): like getNoteById but keyed by
NoteKey::new(note_key as u64). -/
def Java_xyz_tcheeric_nostrdb_NostrdbNative_getNoteByKey
    (engineGetK : Nat → Except NdbError Nat)
    (serNote : Nat → Except String (List Nat))
    (h : Heap) (ndb_ptr txn_ptr : Nat) (note_key : Int) :
    BOutcome (Option (List Nat)) × Heap :=
  with_exceptionS none (do
    let o1 ← ptr_to_refS ndb_ptr "ndb"
    let _ ← liftR (asNdb o1)
    let o2 ← ptr_to_refS txn_ptr "transaction"
    let _ ← liftR (asTxn o2)
    match engineGetK (u64_of_jlong note_key) with
    | .ok note =>
        match serNote note with
        | .ok json => pure (some json)
        | .error m => liftR (.err (.Json m))
    | .error .NotFound => pure none
    | .error e => liftR (.err (.Nostrdb e))) h

/-- getProfileByPubkey (src/lib.rs): same shape as getNoteById with the
profile lookup and serialize_profile. -/
def Java_xyz_tcheeric_nostrdb_NostrdbNative_getProfileByPubkey
    (engineGetP : List Nat → Except NdbError Nat)
    (serProfile : Nat → Except String (List Nat))
    (h : Heap) (ndb_ptr txn_ptr : Nat) (pubkey : JBytesF) :
    BOutcome (Option (List Nat)) × Heap :=
  with_exceptionS none (do
    let o1 ← ptr_to_refS ndb_ptr "ndb"
    let _ ← liftR (asNdb o1)
    let o2 ← ptr_to_refS txn_ptr "transaction"
    let _ ← liftR (asTxn o2)
    let pk ← liftR (java_bytes_to_32 pubkey)
    match engineGetP pk with
    | .ok profile =>
        match serProfile profile with
        | .ok json => pure (some json)
        | .error m => liftR (.err (.Json m))
    | .error .NotFound => pure none
    | .error e => liftR (.err (.Nostrdb e))) h

/-- query (src/lib.rs): default null; validates ndb, transaction and filter
handles, runs the engine query, then serializes the resulting note keys in
the key-list wire format.  engineQuery is the ndb.query oracle (keys as
u64 values). -/
def Java_xyz_tcheeric_nostrdb_NostrdbNative_query
    (engineQuery : FilterB → Int → Except NdbError (List Nat))
    (h : Heap) (ndb_ptr txn_ptr filter_ptr : Nat) (limit : Int) :
    BOutcome (Option (List Nat)) × Heap :=
  with_exceptionS none (do
    let o1 ← ptr_to_refS ndb_ptr "ndb"
    let _ ← liftR (asNdb o1)
    let o2 ← ptr_to_refS txn_ptr "transaction"
    let _ ← liftR (asTxn o2)
    let o3 ← ptr_to_refS filter_ptr "filter"
    let f ← liftR (asFilter o3)
    match engineQuery f limit with
    | .ok results => pure (some (serializeKeyList results))
    | .error e => liftR (.err (.Nostrdb e))) h

/-- filterKinds (src/lib.rs): with_exception with default filter_ptr (the
incoming handle!); reclaims the builder box unconditionally (no null
check), marshals the byte array, decodes whole 4-byte chunks, applies the
engine kinds transition and boxes the new builder. -/
def Java_xyz_tcheeric_nostrdb_NostrdbNative_filterKinds
    (h : Heap) (filter_ptr : Nat) (kinds : JBytesF) : BOutcome Nat × Heap :=
  with_exceptionS filter_ptr (do
    let b ← takeBuilderS filter_ptr
    let bytes ← liftR (java_bytes_to_rust kinds)
    box_to_ptrS (.fbuilder (b ++ [.kinds (decodeKinds bytes)]))) h

/-- filterAuthors (src/lib.rs): like filterKinds with 32-byte chunks. -/
def Java_xyz_tcheeric_nostrdb_NostrdbNative_filterAuthors
    (h : Heap) (filter_ptr : Nat) (authors : JBytesF) : BOutcome Nat × Heap :=
  with_exceptionS filter_ptr (do
    let b ← takeBuilderS filter_ptr
    let bytes ← liftR (java_bytes_to_rust authors)
    box_to_ptrS (.fbuilder (b ++ [.authors (decodeAuthors bytes)]))) h

/-- filterTag (src/lib.rs): reclaims the builder box (no null check),
marshals the tag name, takes its first character (Error::Filter on an
empty name), marshals every element of the value array, then applies the
engine tags transition. -/
def Java_xyz_tcheeric_nostrdb_NostrdbNative_filterTag
    (h : Heap) (filter_ptr : Nat) (tag_name : JStringF)
    (tag_values : List JStringF) : BOutcome Nat × Heap :=
  with_exceptionS filter_ptr (do
    let b ← takeBuilderS filter_ptr
    let tag ← liftR (java_string_to_rust tag_name)
    let tag_char ← liftR (match tag.toList with
      | [] => Res.err (.Filter "Empty tag name")
      | c :: _ => Res.ok c)
    let values ← liftR (decodeAll tag_values)
    box_to_ptrS (.fbuilder (b ++ [.tags values tag_char]))) h

/-- filterSince (src/lib.rs): catch_panic with default filter_ptr; no env,
no null check, applies the since transition with since as u64. -/
def Java_xyz_tcheeric_nostrdb_NostrdbNative_filterSince
    (h : Heap) (filter_ptr : Nat) (since : Int) : BOutcome Nat × Heap :=
  catch_panicS filter_ptr (do
    let b ← takeBuilderS filter_ptr
    box_to_ptrS (.fbuilder (b ++ [.since (u64_of_jlong since)]))) h

/-- filterUntil (src/lib.rs): like filterSince. -/
def Java_xyz_tcheeric_nostrdb_NostrdbNative_filterUntil
    (h : Heap) (filter_ptr : Nat) (untilArg : Int) : BOutcome Nat × Heap :=
  catch_panicS filter_ptr (do
    let b ← takeBuilderS filter_ptr
    box_to_ptrS (.fbuilder (b ++ [.untilTime (u64_of_jlong untilArg)]))) h

/-- filterLimit (src/lib.rs): like filterSince. -/
def Java_xyz_tcheeric_nostrdb_NostrdbNative_filterLimit
    (h : Heap) (filter_ptr : Nat) (limit : Int) : BOutcome Nat × Heap :=
  catch_panicS filter_ptr (do
    let b ← takeBuilderS filter_ptr
    box_to_ptrS (.fbuilder (b ++ [.limit (u64_of_jlong limit)]))) h

/-- filterSearch (src/lib.rs): with_exception with default filter_ptr;
reclaims the builder (no null check) and marshals the search string. -/
def Java_xyz_tcheeric_nostrdb_NostrdbNative_filterSearch
    (h : Heap) (filter_ptr : Nat) (search : JStringF) : BOutcome Nat × Heap :=
  with_exceptionS filter_ptr (do
    let b ← takeBuilderS filter_ptr
    let s ← liftR (java_string_to_rust search)
    box_to_ptrS (.fbuilder (b ++ [.search s]))) h

/-- filterBuild (src/lib.rs): catch_panic with default 0; reclaims the
builder (no null check) and boxes the built Filter. -/
def Java_xyz_tcheeric_nostrdb_NostrdbNative_filterBuild
    (h : Heap) (filter_ptr : Nat) : BOutcome Nat × Heap :=
  catch_panicS 0 (do
    let b ← takeBuilderS filter_ptr
    box_to_ptrS (.filterF b)) h

/-- subscribe (src/lib.rs): default 0; validates ndb and filter handles,
registers the subscription with the engine and returns its id as jlong. -/
def Java_xyz_tcheeric_nostrdb_NostrdbNative_subscribe
    (engineSub : FilterB → Except NdbError Nat)
    (h : Heap) (ndb_ptr filter_ptr : Nat) : BOutcome Int × Heap :=
  with_exceptionS 0 (do
    let o1 ← ptr_to_refS ndb_ptr "ndb"
    let _ ← liftR (asNdb o1)
    let o2 ← ptr_to_refS filter_ptr "filter"
    let f ← liftR (asFilter o2)
    match engineSub f with
    | .ok id => pure (jlong_of_u64 id)
    | .error e => liftR (.err (.Nostrdb e))) h

/-- pollForNotes (src/lib.rs): default null; validates the ndb handle,
polls the engine (infallible, returns a key vector) and serializes the
keys in the key-list wire format. -/
def Java_xyz_tcheeric_nostrdb_NostrdbNative_pollForNotes
    (enginePoll : Nat → Nat → List Nat)
    (h : Heap) (ndb_ptr : Nat) (sub_id : Int) (max_notes : Int) :
    BOutcome (Option (List Nat)) × Heap :=
  with_exceptionS none (do
    let o ← ptr_to_refS ndb_ptr "ndb"
    let _ ← liftR (asNdb o)
    pure (some (serializeKeyList
      (enginePoll (u64_of_jlong sub_id) (u32_of_jint max_notes))))) h

/-- unsubscribe (src/lib.rs): validates the ndb handle with ptr_to_mut,
then Arc::get_mut: exclusive (strong count 1) proceeds to the engine
unsubscribe, an aliased Arc fails with Error::InvalidState. -/
def Java_xyz_tcheeric_nostrdb_NostrdbNative_unsubscribe
    (engineUnsub : Nat → Except NdbError Unit)
    (h : Heap) (ndb_ptr : Nat) (sub_id : Int) : BOutcome Unit × Heap :=
  with_exceptionS () (do
    let o ← ptr_to_mutS ndb_ptr "ndb"
    let rc ← liftR (asNdb o)
    if rc = 1 then
      match engineUnsub (u64_of_jlong sub_id) with
      | .ok _ => pure ()
      | .error e => liftR (.err (.Nostrdb e))
    else
      liftR (.err (.InvalidState "Cannot unsubscribe: Ndb has multiple references"))) h

-- ============================================================================
-- Claim-statement predicates and concrete fixtures
-- ============================================================================

/-- The outcome the spec's zero-handle rule demands: some value returned
with a NullPointer exception pending, naming some role. -/
def raisesNullHandle {α : Type} (out : BOutcome α) : Prop :=
  ∃ v role, out = .ret v (some (.exc (.NullPointer role)))

/-- The outcome claim C2 demands of a failed filter transition: the absent
value zero is returned. -/
def returnsZeroValue (out : BOutcome Nat × Heap) : Prop :=
  ∃ t, out.1 = BOutcome.ret 0 t

/-- The outcome claim C8 demands of a malformed tag value: an
InvalidEncoding (Error::InvalidUtf8) failure. -/
def raisesInvalidEncoding {α : Type} (out : BOutcome α) : Prop :=
  ∃ v m, out = .ret v (some (.exc (.InvalidUtf8 m)))

/-- Concrete heap for witnesses: an exclusively-owned Ndb at 1, a
Transaction at 2, a FilterBuilder at 3, a built Filter at 4, an aliased
Ndb (strong count 2) at 5. -/
def heapW : Heap :=
  { objs := fun x =>
      if x = 1 then some (.ndb 1)
      else if x = 2 then some .txn
      else if x = 3 then some (.fbuilder [])
      else if x = 4 then some (.filterF [])
      else if x = 5 then some (.ndb 2)
      else none,
    next := 6 }

/-- The empty heap. -/
def heapE : Heap := { objs := fun _ => none, next := 1 }

-- ============================================================================
-- Helper lemmas
-- ============================================================================

theorem bind_apply {α β : Type} (m : StR α) (f : α → StR β) (h : Heap) :
    (m >>= f) h =
      match m h with
      | (.ok a, h1) => f a h1
      | (.err e, h1) => (.err e, h1)
      | (.panicked m', h1) => (.panicked m', h1)
      | (.fault, h1) => (.fault, h1) := rfl

theorem ptr_to_refS_apply (p : Nat) (name : String) (h : Heap) :
    ptr_to_refS p name h = (ptr_to_ref h p name, h) := rfl

theorem ptr_to_mutS_apply (p : Nat) (name : String) (h : Heap) :
    ptr_to_mutS p name h = (ptr_to_mut h p name, h) := rfl

theorem ptr_to_ref_pos {h : Heap} {p : Nat} {o : Obj} (name : String)
    (hp : p ≠ 0) (ho : h.objs p = some o) : ptr_to_ref h p name = .ok o := by
  unfold ptr_to_ref
  rw [if_neg hp, ho]

theorem ptr_to_mut_pos {h : Heap} {p : Nat} {o : Obj} (name : String)
    (hp : p ≠ 0) (ho : h.objs p = some o) : ptr_to_mut h p name = .ok o := by
  unfold ptr_to_mut
  rw [if_neg hp, ho]

theorem takeBuilderS_pos {h : Heap} {p : Nat} {b : FilterB}
    (hp : p ≠ 0) (ho : h.objs p = some (.fbuilder b)) :
    takeBuilderS p h = (.ok b, removeAt h p) := by
  unfold takeBuilderS takeBuilder
  rw [if_neg hp, ho]

-- ============================================================================
-- Claim theorems
-- ============================================================================

/-- C9: the destroy-like operations ndbClose, endTransaction and
filterDestroy, called with a zero handle, do not fault and have no effect:
the result is a normal return with no exception and the heap is
unchanged (drop_ptr is a no-op on zero). -/
theorem C9_destroy_zero_noop (h : Heap) :
    Java_xyz_tcheeric_nostrdb_NostrdbNative_ndbClose h 0 = (.ret () none, h)
    ∧ Java_xyz_tcheeric_nostrdb_NostrdbNative_endTransaction h 0 = (.ret () none, h)
    ∧ Java_xyz_tcheeric_nostrdb_NostrdbNative_filterDestroy h 0 = (.ret () none, h) :=
  ⟨rfl, rfl, rfl⟩

/-- C1 counterexample: the claim says every filter-builder transition on a
zero handle fails with NullHandle.  It is false: filterSince performs no
null check at all — the zero handle goes straight into Box::from_raw,
which is undefined behavior, and no NullPointer error is raised. -/
theorem C1_cex_filterSince_zero :
    ¬ raisesNullHandle (Java_xyz_tcheeric_nostrdb_NostrdbNative_filterSince heapE 0 5).1
    ∧ (Java_xyz_tcheeric_nostrdb_NostrdbNative_filterSince heapE 0 5).1 = BOutcome.ub := by
  constructor
  · rintro ⟨v, role, hx⟩
    rw [show (Java_xyz_tcheeric_nostrdb_NostrdbNative_filterSince heapE 0 5).1
          = BOutcome.ub from rfl] at hx
    cases hx
  · rfl

/-- C1 amended: every boundary operation that validates its handles through
ptr_to_ref / ptr_to_mut (processEvents, the lookups, query, subscribe,
pollForNotes, unsubscribe) fails with NullHandle naming the missing
handle's role when that handle is zero, performing no further work (the
outcome does not depend on the engine oracles and the heap is untouched);
the filter-builder transitions, however, perform no zero check: a zero
builder handle is passed unconditionally to Box::from_raw, which is
undefined behavior, not a NullHandle failure. -/
theorem C1_amended_zero_handle :
    (∀ {σ : Type} (step : σ → String → Bool × σ) (s0 : σ) (h : Heap) (j : JStringF),
      Java_xyz_tcheeric_nostrdb_NostrdbNative_processEvents step s0 h 0 j
        = (.ret (-1) (some (.exc (.NullPointer "ndb"))), h))
  ∧ (∀ eg sn (h : Heap) tp idb,
      Java_xyz_tcheeric_nostrdb_NostrdbNative_getNoteById eg sn h 0 tp idb
        = (.ret none (some (.exc (.NullPointer "ndb"))), h))
  ∧ (∀ egk sn (h : Heap) tp k,
      Java_xyz_tcheeric_nostrdb_NostrdbNative_getNoteByKey egk sn h 0 tp k
        = (.ret none (some (.exc (.NullPointer "ndb"))), h))
  ∧ (∀ egp sp (h : Heap) tp pk,
      Java_xyz_tcheeric_nostrdb_NostrdbNative_getProfileByPubkey egp sp h 0 tp pk
        = (.ret none (some (.exc (.NullPointer "ndb"))), h))
  ∧ (∀ eq (h : Heap) tp fp lim,
      Java_xyz_tcheeric_nostrdb_NostrdbNative_query eq h 0 tp fp lim
        = (.ret none (some (.exc (.NullPointer "ndb"))), h))
  ∧ (∀ es (h : Heap) fp,
      Java_xyz_tcheeric_nostrdb_NostrdbNative_subscribe es h 0 fp
        = (.ret 0 (some (.exc (.NullPointer "ndb"))), h))
  ∧ (∀ ep (h : Heap) sid mx,
      Java_xyz_tcheeric_nostrdb_NostrdbNative_pollForNotes ep h 0 sid mx
        = (.ret none (some (.exc (.NullPointer "ndb"))), h))
  ∧ (∀ eu (h : Heap) sid,
      Java_xyz_tcheeric_nostrdb_NostrdbNative_unsubscribe eu h 0 sid
        = (.ret () (some (.exc (.NullPointer "ndb"))), h))
  ∧ (∀ eg sn (h : Heap) nd rc idb, nd ≠ 0 → h.objs nd = some (.ndb rc) →
      Java_xyz_tcheeric_nostrdb_NostrdbNative_getNoteById eg sn h nd 0 idb
        = (.ret none (some (.exc (.NullPointer "transaction"))), h))
  ∧ (∀ eq (h : Heap) nd rc fp lim, nd ≠ 0 → h.objs nd = some (.ndb rc) →
      Java_xyz_tcheeric_nostrdb_NostrdbNative_query eq h nd 0 fp lim
        = (.ret none (some (.exc (.NullPointer "transaction"))), h))
  ∧ (∀ eq (h : Heap) nd rc tx lim, nd ≠ 0 → h.objs nd = some (.ndb rc) →
      tx ≠ 0 → h.objs tx = some .txn →
      Java_xyz_tcheeric_nostrdb_NostrdbNative_query eq h nd tx 0 lim
        = (.ret none (some (.exc (.NullPointer "filter"))), h))
  ∧ (∀ es (h : Heap) nd rc, nd ≠ 0 → h.objs nd = some (.ndb rc) →
      Java_xyz_tcheeric_nostrdb_NostrdbNative_subscribe es h nd 0
        = (.ret 0 (some (.exc (.NullPointer "filter"))), h))
  ∧ (∀ (h : Heap) arr,
      Java_xyz_tcheeric_nostrdb_NostrdbNative_filterKinds h 0 arr = (.ub, h))
  ∧ (∀ (h : Heap) arr,
      Java_xyz_tcheeric_nostrdb_NostrdbNative_filterAuthors h 0 arr = (.ub, h))
  ∧ (∀ (h : Heap) tn tvs,
      Java_xyz_tcheeric_nostrdb_NostrdbNative_filterTag h 0 tn tvs = (.ub, h))
  ∧ (∀ (h : Heap) x,
      Java_xyz_tcheeric_nostrdb_NostrdbNative_filterSince h 0 x = (.ub, h))
  ∧ (∀ (h : Heap) x,
      Java_xyz_tcheeric_nostrdb_NostrdbNative_filterUntil h 0 x = (.ub, h))
  ∧ (∀ (h : Heap) x,
      Java_xyz_tcheeric_nostrdb_NostrdbNative_filterLimit h 0 x = (.ub, h))
  ∧ (∀ (h : Heap) s,
      Java_xyz_tcheeric_nostrdb_NostrdbNative_filterSearch h 0 s = (.ub, h))
  ∧ (∀ (h : Heap),
      Java_xyz_tcheeric_nostrdb_NostrdbNative_filterBuild h 0 = (.ub, h)) := by
  refine ⟨fun step s0 h j => rfl, fun eg sn h tp idb => rfl, fun egk sn h tp k => rfl,
    fun egp sp h tp pk => rfl, fun eq h tp fp lim => rfl, fun es h fp => rfl,
    fun ep h sid mx => rfl, fun eu h sid => rfl, ?_, ?_, ?_, ?_,
    fun h arr => rfl, fun h arr => rfl, fun h tn tvs => rfl, fun h x => rfl,
    fun h x => rfl, fun h x => rfl, fun h s => rfl, fun h => rfl⟩
  · intro eg sn h nd rc idb hnd hobj
    simp only [Java_xyz_tcheeric_nostrdb_NostrdbNative_getNoteById, with_exceptionS,
      bind_apply, ptr_to_refS_apply, ptr_to_ref_pos "ndb" hnd hobj, asNdb, liftR]
    rfl
  · intro eq h nd rc fp lim hnd hobj
    simp only [Java_xyz_tcheeric_nostrdb_NostrdbNative_query, with_exceptionS,
      bind_apply, ptr_to_refS_apply, ptr_to_ref_pos "ndb" hnd hobj, asNdb, liftR]
    rfl
  · intro eq h nd rc tx lim hnd hobj htx htxobj
    simp only [Java_xyz_tcheeric_nostrdb_NostrdbNative_query, with_exceptionS,
      bind_apply, ptr_to_refS_apply, ptr_to_ref_pos "ndb" hnd hobj,
      ptr_to_ref_pos "transaction" htx htxobj, asNdb, asTxn, liftR]
    rfl
  · intro es h nd rc hnd hobj
    simp only [Java_xyz_tcheeric_nostrdb_NostrdbNative_subscribe, with_exceptionS,
      bind_apply, ptr_to_refS_apply, ptr_to_ref_pos "ndb" hnd hobj, asNdb, liftR]
    rfl

/-- C1 witness: the zero-handle rule instantiated on the concrete heap with
a live Ndb at handle 1 and a live Transaction at handle 2. -/
theorem C1_amended_zero_handle_wit :
    Java_xyz_tcheeric_nostrdb_NostrdbNative_getNoteById
        (fun _ => .error .NotFound) (fun _ => .ok []) heapW 1 0 (.ok [])
      = (.ret none (some (.exc (.NullPointer "transaction"))), heapW)
    ∧ Java_xyz_tcheeric_nostrdb_NostrdbNative_query
        (fun _ _ => .ok []) heapW 1 2 0 10
      = (.ret none (some (.exc (.NullPointer "filter"))), heapW) := by
  refine ⟨C1_amended_zero_handle.2.2.2.2.2.2.2.2.1 _ _ heapW 1 1 _ (by decide) (by decide), ?_⟩
  exact C1_amended_zero_handle.2.2.2.2.2.2.2.2.2.2.1 _ heapW 1 1 2 10
    (by decide) (by decide) (by decide) (by decide)

/-- C2 counterexample: the claim says a failing filter-builder transition
returns the absent value zero.  It is false: filterKinds passes filter_ptr
itself as the default to with_exception, so on a marshaling error it
returns the incoming handle (here 3), not zero. -/
theorem C2_cex_filterKinds_returns_old_handle :
    (Java_xyz_tcheeric_nostrdb_NostrdbNative_filterKinds heapW 3 (.error "boom")).1
      = BOutcome.ret 3 (some (.exc (.Jni "boom")))
    ∧ ¬ returnsZeroValue
        (Java_xyz_tcheeric_nostrdb_NostrdbNative_filterKinds heapW 3 (.error "boom")) := by
  constructor
  · rfl
  · rintro ⟨t, ht⟩
    rw [show (Java_xyz_tcheeric_nostrdb_NostrdbNative_filterKinds heapW 3 (.error "boom")).1
          = BOutcome.ret 3 (some (.exc (.Jni "boom"))) from rfl] at ht
    cases ht

/-- C2 amended: on any declared failure of the body, with_exception raises
exactly that error as the pending Java exception and returns the
operation's declared default — which for the lookup operations is null,
but for a filter-builder transition is the incoming handle (filter_ptr),
not zero.  In particular filterKinds on a marshaling error throws the Jni
error and returns the old handle, the builder it consumed already freed. -/
theorem C2_amended_failure_default :
    (∀ {α : Type} (d : α) (body : StR α) (h h1 : Heap) (e : Error),
      body h = (.err e, h1) →
      with_exceptionS d body h = (.ret d (some (.exc e)), h1))
  ∧ (∀ (h : Heap) fp b m, fp ≠ 0 → h.objs fp = some (.fbuilder b) →
      Java_xyz_tcheeric_nostrdb_NostrdbNative_filterKinds h fp (.error m)
        = (.ret fp (some (.exc (.Jni m))), removeAt h fp))
  ∧ (∀ eg sn (h : Heap) nd tx rc m, nd ≠ 0 → h.objs nd = some (.ndb rc) →
      tx ≠ 0 → h.objs tx = some .txn →
      Java_xyz_tcheeric_nostrdb_NostrdbNative_getNoteById eg sn h nd tx (.error m)
        = (.ret none (some (.exc (.Jni m))), h)) := by
  refine ⟨?_, ?_, ?_⟩
  · intro α d body h h1 e he
    unfold with_exceptionS
    rw [he]
  · intro h fp b m hfp hobj
    simp only [Java_xyz_tcheeric_nostrdb_NostrdbNative_filterKinds, with_exceptionS,
      bind_apply, takeBuilderS_pos hfp hobj, liftR, java_bytes_to_rust]
  · intro eg sn h nd tx rc m hnd hobj htx htxobj
    simp only [Java_xyz_tcheeric_nostrdb_NostrdbNative_getNoteById, with_exceptionS,
      bind_apply, ptr_to_refS_apply, ptr_to_ref_pos "ndb" hnd hobj,
      ptr_to_ref_pos "transaction" htx htxobj, asNdb, asTxn, liftR,
      java_bytes_to_32, java_bytes_to_rust]
    rfl

/-- C2 witness: the amended failure contract instantiated on the concrete
heap (builder at handle 3; Ndb at 1 and Transaction at 2). -/
theorem C2_amended_failure_default_wit :
    Java_xyz_tcheeric_nostrdb_NostrdbNative_filterKinds heapW 3 (.error "oops")
      = (.ret 3 (some (.exc (.Jni "oops"))), removeAt heapW 3)
    ∧ Java_xyz_tcheeric_nostrdb_NostrdbNative_getNoteById
        (fun _ => .error .NotFound) (fun _ => .ok []) heapW 1 2 (.error "oops")
      = (.ret none (some (.exc (.Jni "oops"))), heapW) := by
  refine ⟨C2_amended_failure_default.2.1 heapW 3 [] "oops" (by decide) (by decide), ?_⟩
  exact C2_amended_failure_default.2.2 _ _ heapW 1 2 1 "oops"
    (by decide) (by decide) (by decide) (by decide)

theorem res_bind_apply {α β : Type} (m : Res α) (f : α → Res β) :
    (m >>= f) = Res.bind m f := rfl

theorem res_pure_apply {α : Type} (a : α) : (pure a : Res α) = Res.ok a := rfl

theorem stR_pure_apply {α : Type} (a : α) (h : Heap) :
    (pure a : StR α) h = (.ok a, h) := rfl

theorem ne32_irrefl : ¬ ((32 : Nat) ≠ 32) := fun hx => hx rfl

/-- C5: with valid non-null handles and a well-formed key, every
lookup-by-identity operation (getNoteById, getNoteByKey,
getProfileByPubkey) returns null with no exception when the engine reports
NotFound, and raises the mapped engine error (returning null) on every
other engine failure. -/
theorem C5_lookup_notfound :
    (∀ eg sn (h : Heap) nd tx rc (bs : List Nat),
      nd ≠ 0 → h.objs nd = some (.ndb rc) → tx ≠ 0 → h.objs tx = some .txn →
      bs.length = 32 →
      (eg bs = Except.error NdbError.NotFound →
        Java_xyz_tcheeric_nostrdb_NostrdbNative_getNoteById eg sn h nd tx (.ok bs)
          = (.ret none none, h))
      ∧ (∀ e, e ≠ NdbError.NotFound → eg bs = Except.error e →
        Java_xyz_tcheeric_nostrdb_NostrdbNative_getNoteById eg sn h nd tx (.ok bs)
          = (.ret none (some (.exc (.Nostrdb e))), h)))
  ∧ (∀ egk sn (h : Heap) nd tx rc (k : Int),
      nd ≠ 0 → h.objs nd = some (.ndb rc) → tx ≠ 0 → h.objs tx = some .txn →
      (egk (u64_of_jlong k) = Except.error NdbError.NotFound →
        Java_xyz_tcheeric_nostrdb_NostrdbNative_getNoteByKey egk sn h nd tx k
          = (.ret none none, h))
      ∧ (∀ e, e ≠ NdbError.NotFound → egk (u64_of_jlong k) = Except.error e →
        Java_xyz_tcheeric_nostrdb_NostrdbNative_getNoteByKey egk sn h nd tx k
          = (.ret none (some (.exc (.Nostrdb e))), h)))
  ∧ (∀ egp sp (h : Heap) nd tx rc (bs : List Nat),
      nd ≠ 0 → h.objs nd = some (.ndb rc) → tx ≠ 0 → h.objs tx = some .txn →
      bs.length = 32 →
      (egp bs = Except.error NdbError.NotFound →
        Java_xyz_tcheeric_nostrdb_NostrdbNative_getProfileByPubkey egp sp h nd tx (.ok bs)
          = (.ret none none, h))
      ∧ (∀ e, e ≠ NdbError.NotFound → egp bs = Except.error e →
        Java_xyz_tcheeric_nostrdb_NostrdbNative_getProfileByPubkey egp sp h nd tx (.ok bs)
          = (.ret none (some (.exc (.Nostrdb e))), h))) := by
  refine ⟨?_, ?_, ?_⟩
  · intro eg sn h nd tx rc bs hnd hobj htx htxobj hlen
    constructor
    · intro heng
      simp only [Java_xyz_tcheeric_nostrdb_NostrdbNative_getNoteById, with_exceptionS,
        bind_apply, ptr_to_refS_apply, ptr_to_ref_pos "ndb" hnd hobj,
        ptr_to_ref_pos "transaction" htx htxobj, asNdb, asTxn, liftR,
        java_bytes_to_32, java_bytes_to_rust, res_bind_apply, Res.bind,
          res_pure_apply, stR_pure_apply, hlen, if_neg ne32_irrefl, heng]
    · intro e hne heng
      cases e with
      | NotFound => exact absurd rfl hne
      | DbOpenFailed =>
        simp only [Java_xyz_tcheeric_nostrdb_NostrdbNative_getNoteById, with_exceptionS,
          bind_apply, ptr_to_refS_apply, ptr_to_ref_pos "ndb" hnd hobj,
          ptr_to_ref_pos "transaction" htx htxobj, asNdb, asTxn, liftR,
          java_bytes_to_32, java_bytes_to_rust, res_bind_apply, Res.bind,
          res_pure_apply, stR_pure_apply, hlen, if_neg ne32_irrefl, heng]
      | Other m =>
        simp only [Java_xyz_tcheeric_nostrdb_NostrdbNative_getNoteById, with_exceptionS,
          bind_apply, ptr_to_refS_apply, ptr_to_ref_pos "ndb" hnd hobj,
          ptr_to_ref_pos "transaction" htx htxobj, asNdb, asTxn, liftR,
          java_bytes_to_32, java_bytes_to_rust, res_bind_apply, Res.bind,
          res_pure_apply, stR_pure_apply, hlen, if_neg ne32_irrefl, heng]
  · intro egk sn h nd tx rc k hnd hobj htx htxobj
    constructor
    · intro heng
      simp only [Java_xyz_tcheeric_nostrdb_NostrdbNative_getNoteByKey, with_exceptionS,
        bind_apply, ptr_to_refS_apply, ptr_to_ref_pos "ndb" hnd hobj,
        ptr_to_ref_pos "transaction" htx htxobj, asNdb, asTxn, liftR, res_pure_apply, stR_pure_apply, heng]
    · intro e hne heng
      cases e with
      | NotFound => exact absurd rfl hne
      | DbOpenFailed =>
        simp only [Java_xyz_tcheeric_nostrdb_NostrdbNative_getNoteByKey, with_exceptionS,
          bind_apply, ptr_to_refS_apply, ptr_to_ref_pos "ndb" hnd hobj,
          ptr_to_ref_pos "transaction" htx htxobj, asNdb, asTxn, liftR, res_pure_apply, stR_pure_apply, heng]
      | Other m =>
        simp only [Java_xyz_tcheeric_nostrdb_NostrdbNative_getNoteByKey, with_exceptionS,
          bind_apply, ptr_to_refS_apply, ptr_to_ref_pos "ndb" hnd hobj,
          ptr_to_ref_pos "transaction" htx htxobj, asNdb, asTxn, liftR, res_pure_apply, stR_pure_apply, heng]
  · intro egp sp h nd tx rc bs hnd hobj htx htxobj hlen
    constructor
    · intro heng
      simp only [Java_xyz_tcheeric_nostrdb_NostrdbNative_getProfileByPubkey, with_exceptionS,
        bind_apply, ptr_to_refS_apply, ptr_to_ref_pos "ndb" hnd hobj,
        ptr_to_ref_pos "transaction" htx htxobj, asNdb, asTxn, liftR,
        java_bytes_to_32, java_bytes_to_rust, res_bind_apply, Res.bind,
          res_pure_apply, stR_pure_apply, hlen, if_neg ne32_irrefl, heng]
    · intro e hne heng
      cases e with
      | NotFound => exact absurd rfl hne
      | DbOpenFailed =>
        simp only [Java_xyz_tcheeric_nostrdb_NostrdbNative_getProfileByPubkey, with_exceptionS,
          bind_apply, ptr_to_refS_apply, ptr_to_ref_pos "ndb" hnd hobj,
          ptr_to_ref_pos "transaction" htx htxobj, asNdb, asTxn, liftR,
          java_bytes_to_32, java_bytes_to_rust, res_bind_apply, Res.bind,
          res_pure_apply, stR_pure_apply, hlen, if_neg ne32_irrefl, heng]
      | Other m =>
        simp only [Java_xyz_tcheeric_nostrdb_NostrdbNative_getProfileByPubkey, with_exceptionS,
          bind_apply, ptr_to_refS_apply, ptr_to_ref_pos "ndb" hnd hobj,
          ptr_to_ref_pos "transaction" htx htxobj, asNdb, asTxn, liftR,
          java_bytes_to_32, java_bytes_to_rust, res_bind_apply, Res.bind,
          res_pure_apply, stR_pure_apply, hlen, if_neg ne32_irrefl, heng]

/-- C5 witness: a NotFound lookup returns null and raises nothing, an
Other engine failure raises it, on the concrete heap. -/
theorem C5_lookup_notfound_wit :
    Java_xyz_tcheeric_nostrdb_NostrdbNative_getNoteById
        (fun _ => .error .NotFound) (fun _ => .ok []) heapW 1 2 (.ok (List.replicate 32 0))
      = (.ret none none, heapW)
    ∧ Java_xyz_tcheeric_nostrdb_NostrdbNative_getProfileByPubkey
        (fun _ => .error (.Other "corrupt")) (fun _ => .ok []) heapW 1 2
        (.ok (List.replicate 32 0))
      = (.ret none (some (.exc (.Nostrdb (.Other "corrupt")))), heapW) := by
  constructor
  · exact (C5_lookup_notfound.1 _ _ heapW 1 2 1 _ (by decide) (by decide) (by decide)
      (by decide) (by decide)).1 rfl
  · exact ((C5_lookup_notfound.2.2 _ _ heapW 1 2 1 _ (by decide) (by decide) (by decide)
      (by decide) (by decide)).2 (.Other "corrupt") (by decide) rfl)

/-- C6: unsubscribe with a non-null database handle fails with
InvalidState (mapped to java/lang/IllegalStateException) whenever the Arc
holding the engine is aliased (strong count at least 2), without touching
the engine (its outcome does not depend on the engine oracle); with an
exclusive reference (strong count 1) it performs the engine-level
unsubscribe, surfacing the engine's own result. -/
theorem C6_unsubscribe_exclusive :
    (∀ eu (h : Heap) nd rc sid, nd ≠ 0 → h.objs nd = some (.ndb rc) → 2 ≤ rc →
      Java_xyz_tcheeric_nostrdb_NostrdbNative_unsubscribe eu h nd sid
        = (.ret () (some (.exc
            (.InvalidState "Cannot unsubscribe: Ndb has multiple references"))), h))
  ∧ (∀ eu (h : Heap) nd sid, nd ≠ 0 → h.objs nd = some (.ndb 1) →
      (eu (u64_of_jlong sid) = Except.ok () →
        Java_xyz_tcheeric_nostrdb_NostrdbNative_unsubscribe eu h nd sid
          = (.ret () none, h))
      ∧ (∀ e, eu (u64_of_jlong sid) = Except.error e →
        Java_xyz_tcheeric_nostrdb_NostrdbNative_unsubscribe eu h nd sid
          = (.ret () (some (.exc (.Nostrdb e))), h)))
  ∧ Error.exception_class (.InvalidState "Cannot unsubscribe: Ndb has multiple references")
      = "java/lang/IllegalStateException" := by
  refine ⟨?_, ?_, rfl⟩
  · intro eu h nd rc sid hnd hobj hrc
    simp only [Java_xyz_tcheeric_nostrdb_NostrdbNative_unsubscribe, with_exceptionS,
      bind_apply, ptr_to_mutS_apply, ptr_to_mut_pos "ndb" hnd hobj, asNdb, liftR,
      if_neg (show ¬ rc = 1 by omega)]
  · intro eu h nd sid hnd hobj
    constructor
    · intro heng
      simp only [Java_xyz_tcheeric_nostrdb_NostrdbNative_unsubscribe, with_exceptionS,
        bind_apply, ptr_to_mutS_apply, ptr_to_mut_pos "ndb" hnd hobj, asNdb, liftR,
        res_pure_apply, stR_pure_apply, if_pos rfl, if_true, heng]
    · intro e heng
      simp only [Java_xyz_tcheeric_nostrdb_NostrdbNative_unsubscribe, with_exceptionS,
        bind_apply, ptr_to_mutS_apply, ptr_to_mut_pos "ndb" hnd hobj, asNdb, liftR,
        res_pure_apply, stR_pure_apply, if_pos rfl, if_true, heng]

/-- C6 witness: the aliased Ndb at handle 5 (strong count 2) yields
InvalidState; the exclusive Ndb at handle 1 reaches the engine and
succeeds. -/
theorem C6_unsubscribe_exclusive_wit :
    Java_xyz_tcheeric_nostrdb_NostrdbNative_unsubscribe (fun _ => .ok ()) heapW 5 7
      = (.ret () (some (.exc
          (.InvalidState "Cannot unsubscribe: Ndb has multiple references"))), heapW)
    ∧ Java_xyz_tcheeric_nostrdb_NostrdbNative_unsubscribe (fun _ => .ok ()) heapW 1 7
      = (.ret () none, heapW) := by
  refine ⟨C6_unsubscribe_exclusive.1 _ heapW 5 2 7 (by decide) (by decide) (by decide), ?_⟩
  exact (C6_unsubscribe_exclusive.2.1 _ heapW 1 7 (by decide) (by decide)).1 rfl

/-- C7: a fixed-32-byte input (id or pubkey) whose marshaled length is not
exactly 32 makes getNoteById and getProfileByPubkey fail with
InvalidLength (Error::InvalidIdLength, mapped to
java/lang/IllegalArgumentException); the outcome does not depend on the
engine oracle, so the engine is never invoked with a truncated or padded
key, and the heap is untouched. -/
theorem C7_invalid_length :
    (∀ eg sn (h : Heap) nd tx rc (bs : List Nat),
      nd ≠ 0 → h.objs nd = some (.ndb rc) → tx ≠ 0 → h.objs tx = some .txn →
      bs.length ≠ 32 →
      Java_xyz_tcheeric_nostrdb_NostrdbNative_getNoteById eg sn h nd tx (.ok bs)
        = (.ret none (some (.exc (.InvalidIdLength bs.length))), h))
  ∧ (∀ egp sp (h : Heap) nd tx rc (bs : List Nat),
      nd ≠ 0 → h.objs nd = some (.ndb rc) → tx ≠ 0 → h.objs tx = some .txn →
      bs.length ≠ 32 →
      Java_xyz_tcheeric_nostrdb_NostrdbNative_getProfileByPubkey egp sp h nd tx (.ok bs)
        = (.ret none (some (.exc (.InvalidIdLength bs.length))), h))
  ∧ (∀ n, Error.exception_class (.InvalidIdLength n) = "java/lang/IllegalArgumentException") := by
  refine ⟨?_, ?_, fun n => rfl⟩
  · intro eg sn h nd tx rc bs hnd hobj htx htxobj hlen
    simp only [Java_xyz_tcheeric_nostrdb_NostrdbNative_getNoteById, with_exceptionS,
      bind_apply, ptr_to_refS_apply, ptr_to_ref_pos "ndb" hnd hobj,
      ptr_to_ref_pos "transaction" htx htxobj, asNdb, asTxn, liftR,
      java_bytes_to_32, java_bytes_to_rust, res_bind_apply, Res.bind, if_pos hlen]
  · intro egp sp h nd tx rc bs hnd hobj htx htxobj hlen
    simp only [Java_xyz_tcheeric_nostrdb_NostrdbNative_getProfileByPubkey, with_exceptionS,
      bind_apply, ptr_to_refS_apply, ptr_to_ref_pos "ndb" hnd hobj,
      ptr_to_ref_pos "transaction" htx htxobj, asNdb, asTxn, liftR,
      java_bytes_to_32, java_bytes_to_rust, res_bind_apply, Res.bind, if_pos hlen]

/-- C7 witness: a 31-byte id input fails with InvalidIdLength 31 on the
concrete heap. -/
theorem C7_invalid_length_wit :
    Java_xyz_tcheeric_nostrdb_NostrdbNative_getNoteById
        (fun _ => .error .NotFound) (fun _ => .ok []) heapW 1 2 (.ok (List.replicate 31 0))
      = (.ret none (some (.exc (.InvalidIdLength 31))), heapW)
    ∧ Error.exception_class (.InvalidIdLength 31) = "java/lang/IllegalArgumentException" := by
  refine ⟨?_, C7_invalid_length.2.2 31⟩
  have := C7_invalid_length.1 (fun _ => .error .NotFound) (fun _ => .ok []) heapW 1 2 1
    (List.replicate 31 0) (by decide) (by decide) (by decide) (by decide) (by decide)
  simpa using this

theorem processLines_count {σ : Type} (step : σ → String → Bool × σ) :
    ∀ (lines : List String) (s : σ),
      (processLines step s lines).1
        = (runBatch step s (lines.filter fun l => !(isBlankLine l))).count true := by
  intro lines
  induction lines with
  | nil => intro s; rfl
  | cons line rest ih =>
    intro s
    by_cases hb : isBlankLine line = true
    · simp [processLines, hb, ih s, List.filter_cons]
    · have hbf : isBlankLine line = false := by
        revert hb; cases isBlankLine line <;> simp
      cases hr : (step s line).1 <;>
        simp [processLines, hbf, ih, runBatch, List.filter_cons, List.count_cons, hr]

/-- C4: processEvents processes each line independently: blank-after-trim
lines are filtered out before the engine sees anything (so they are never
counted), a per-line engine failure merely fails to increment the count
(it does not abort the batch), and the returned value is the number of
lines whose ingestion succeeded, with no exception; when the operation
cannot start because the database handle is zero, the result is the
sentinel -1 with a NullHandle exception. -/
theorem C4_processEvents_batch :
    (∀ {σ : Type} (step : σ → String → Bool × σ) (s0 : σ) (h : Heap) (nd rc : Nat)
      (s : String), nd ≠ 0 → h.objs nd = some (.ndb rc) →
      Java_xyz_tcheeric_nostrdb_NostrdbNative_processEvents step s0 h nd (.ok s)
        = (.ret ((runBatch step s0
            ((rustLines s).filter fun l => !(isBlankLine l))).count true : Int) none, h))
  ∧ (∀ {σ : Type} (step : σ → String → Bool × σ) (s0 : σ) (h : Heap) (j : JStringF),
      Java_xyz_tcheeric_nostrdb_NostrdbNative_processEvents step s0 h 0 j
        = (.ret (-1) (some (.exc (.NullPointer "ndb"))), h)) := by
  refine ⟨?_, fun step s0 h j => rfl⟩
  intro σ step s0 h nd rc s hnd hobj
  simp only [Java_xyz_tcheeric_nostrdb_NostrdbNative_processEvents, with_exceptionS,
    bind_apply, ptr_to_refS_apply, ptr_to_ref_pos "ndb" hnd hobj, asNdb, liftR,
    java_string_to_rust, stR_pure_apply, processLines_count]

/-- C4 witness: the spec's concrete batch — two well-formed records, one
blank line, one malformed record — yields the count 2: the oracle accepts
exactly the two lines spelling the valid record. -/
theorem C4_processEvents_batch_wit :
    Java_xyz_tcheeric_nostrdb_NostrdbNative_processEvents
        (fun (_ : Unit) (l : String) => (l == "\x7bvalid\x7d", ())) () heapW 1
        (.ok "\x7bvalid\x7d\n\n\x7binvalid\x7d\n\x7bvalid\x7d")
      = (.ret 2 none, heapW) := by
  have h2 := C4_processEvents_batch.1
    (fun (_ : Unit) (l : String) => (l == "\x7bvalid\x7d", ())) () heapW 1 1
    "\x7bvalid\x7d\n\n\x7binvalid\x7d\n\x7bvalid\x7d" (by decide) (by decide)
  rw [h2]
  rfl

theorem u32_roundtrip (n : Nat) (hn : n < 2 ^ 32) :
    u32_from_le_bytes (u32_to_le_bytes n) = n := by
  simp only [u32_to_le_bytes, u32_from_le_bytes]
  omega

theorem u64_roundtrip (n : Nat) (hn : n < 2 ^ 64) :
    u64_from_le_bytes (u64_to_le_bytes n) = n := by
  simp only [u64_to_le_bytes, u64_from_le_bytes]
  omega

theorem u64_bytes_length (n : Nat) : (u64_to_le_bytes n).length = 8 := rfl

theorem keyBytes_length (keys : List Nat) :
    ((keys.map u64_to_le_bytes).flatten).length = 8 * keys.length := by
  induction keys with
  | nil => rfl
  | cons k ks ih =>
    simp only [List.map_cons, List.flatten_cons, List.length_append, ih,
      u64_bytes_length, List.length_cons]
    ring

theorem keyBytes_slice : ∀ (keys : List Nat) (i : Nat) (hi : i < keys.length),
    (((keys.map u64_to_le_bytes).flatten).drop (8 * i)).take 8
      = u64_to_le_bytes (keys.get ⟨i, hi⟩) := by
  intro keys
  induction keys with
  | nil => intro i hi; exact absurd hi (by simp)
  | cons k ks ih =>
    intro i hi
    cases i with
    | zero => rfl
    | succ j =>
      have h8 : 8 * (j + 1) = 8 + 8 * j := by ring
      rw [List.map_cons, List.flatten_cons, h8, ← List.drop_drop,
        show (u64_to_le_bytes k ++ (ks.map u64_to_le_bytes).flatten).drop 8
          = (ks.map u64_to_le_bytes).flatten from rfl]
      exact ih j (Nat.lt_of_succ_lt_succ hi)

/-- C3: the key-list result of query and pollForNotes is exactly the
4-byte little-endian count followed by the 8-byte little-endian keys:
the buffer has length 4 + 8n, its first 4 bytes decode to n, the i-th
8-byte block decodes to the i-th key; with valid handles the success path
of query and pollForNotes returns exactly serializeKeyList of the engine's
keys with no exception. -/
theorem C3_keylist_encoding (keys : List Nat) (h1 : keys.length < 2 ^ 32)
    (h2 : ∀ k ∈ keys, k < 2 ^ 64) :
    (serializeKeyList keys).length = 4 + 8 * keys.length
  ∧ u32_from_le_bytes ((serializeKeyList keys).take 4) = keys.length
  ∧ (∀ i (hi : i < keys.length),
      u64_from_le_bytes (((serializeKeyList keys).drop (4 + 8 * i)).take 8)
        = keys.get ⟨i, hi⟩)
  ∧ (∀ eq (h : Heap) nd tx fp rc f (lim : Int),
      nd ≠ 0 → h.objs nd = some (.ndb rc) → tx ≠ 0 → h.objs tx = some .txn →
      fp ≠ 0 → h.objs fp = some (.filterF f) → eq f lim = Except.ok keys →
      Java_xyz_tcheeric_nostrdb_NostrdbNative_query eq h nd tx fp lim
        = (.ret (some (serializeKeyList keys)) none, h))
  ∧ (∀ ep (h : Heap) nd rc (sid mx : Int),
      nd ≠ 0 → h.objs nd = some (.ndb rc) →
      ep (u64_of_jlong sid) (u32_of_jint mx) = keys →
      Java_xyz_tcheeric_nostrdb_NostrdbNative_pollForNotes ep h nd sid mx
        = (.ret (some (serializeKeyList keys)) none, h)) := by
  refine ⟨?_, ?_, ?_, ?_, ?_⟩
  · simp only [serializeKeyList, List.length_append, keyBytes_length]
    rfl
  · rw [show (serializeKeyList keys).take 4 = u32_to_le_bytes keys.length from rfl]
    exact u32_roundtrip _ h1
  · intro i hi
    have hd : (serializeKeyList keys).drop (4 + 8 * i)
        = ((keys.map u64_to_le_bytes).flatten).drop (8 * i) := by
      rw [← List.drop_drop]
      rfl
    rw [hd, keyBytes_slice keys i hi]
    exact u64_roundtrip _ (h2 _ (keys.get_mem i hi))
  · intro eq h nd tx fp rc f lim hnd hobj htx htxobj hfp hfobj heng
    simp only [Java_xyz_tcheeric_nostrdb_NostrdbNative_query, with_exceptionS,
      bind_apply, ptr_to_refS_apply, ptr_to_ref_pos "ndb" hnd hobj,
      ptr_to_ref_pos "transaction" htx htxobj, ptr_to_ref_pos "filter" hfp hfobj,
      asNdb, asTxn, asFilter, liftR, heng, stR_pure_apply]
  · intro ep h nd rc sid mx hnd hobj heng
    simp only [Java_xyz_tcheeric_nostrdb_NostrdbNative_pollForNotes, with_exceptionS,
      bind_apply, ptr_to_refS_apply, ptr_to_ref_pos "ndb" hnd hobj, asNdb, liftR,
      heng, stR_pure_apply]

/-- C3 witness: the key list with keys 7 and 42 serializes to the spec's
20 bytes 02 00 00 00 07 00 00 00 00 00 00 00 2A 00 00 00 00 00 00 00, and
a query returning those keys delivers exactly that buffer. -/
theorem C3_keylist_encoding_wit :
    u32_from_le_bytes ((serializeKeyList [7, 42]).take 4) = 2
    ∧ serializeKeyList [7, 42]
      = [2, 0, 0, 0, 7, 0, 0, 0, 0, 0, 0, 0, 42, 0, 0, 0, 0, 0, 0, 0]
    ∧ Java_xyz_tcheeric_nostrdb_NostrdbNative_query
        (fun _ _ => .ok [7, 42]) heapW 1 2 4 10
      = (.ret (some (serializeKeyList [7, 42])) none, heapW) := by
  have hc := C3_keylist_encoding [7, 42] (by decide) (by decide)
  refine ⟨hc.2.1, by decide, ?_⟩
  exact hc.2.2.2.1 (fun _ _ => .ok [7, 42]) heapW 1 2 4 1 [] 10 (by decide) (by decide)
    (by decide) (by decide) (by decide) (by decide) rfl

theorem chunksExact_nil {α : Type} (k : Nat) : chunksExact k ([] : List α) = [] := by
  rw [chunksExact]
  by_cases hk : 0 < k
  · rw [dif_pos hk, dif_neg (by simp; omega)]
  · rw [dif_neg hk]

theorem chunksExact_cons {α : Type} (k : Nat) (l : List α) (hk : 0 < k)
    (hl : k ≤ l.length) :
    chunksExact k l = l.take k :: chunksExact k (l.drop k) := by
  rw [chunksExact, dif_pos hk, dif_pos hl]

theorem chunksExact_short {α : Type} (k : Nat) (l : List α) (hl : l.length < k) :
    chunksExact k l = [] := by
  rw [chunksExact]
  by_cases hk : 0 < k
  · rw [dif_pos hk, dif_neg (by omega)]
  · rw [dif_neg hk]

theorem chunksExact_take {α : Type} (k : Nat) (hk : 0 < k) :
    ∀ (n : Nat) (l : List α), l.length ≤ n →
      chunksExact k (l.take (k * (l.length / k))) = chunksExact k l := by
  intro n
  induction n with
  | zero =>
    intro l hl
    have : l = [] := List.eq_nil_of_length_eq_zero (by omega)
    subst this
    simp [chunksExact_nil]
  | succ n ih =>
    intro l hl
    by_cases hlen : k ≤ l.length
    · have hdiv : l.length / k = (l.length - k) / k + 1 := Nat.div_eq_sub_div hk hlen
      have hmul : k * (l.length / k) = k + k * ((l.length - k) / k) := by
        rw [hdiv]; ring
      have htk : (l.take k).length = k := List.length_take_of_le hlen
      rw [hmul, List.take_add, chunksExact_cons k _ hk (by
        simp only [List.length_append, htk, List.length_take]
        omega)]
      rw [chunksExact_cons k l hk hlen]
      have hpre : (l.take k ++ (l.drop k).take (k * ((l.length - k) / k))).take k
          = l.take k := List.take_left' htk
      have hsuf : (l.take k ++ (l.drop k).take (k * ((l.length - k) / k))).drop k
          = (l.drop k).take (k * ((l.length - k) / k)) := List.drop_left' htk
      rw [hpre, hsuf]
      have hdl : (l.drop k).length = l.length - k := List.length_drop k l
      have := ih (l.drop k) (by omega)
      rw [hdl] at this
      rw [this]
    · have : l.length / k = 0 := Nat.div_eq_of_lt (by omega)
      rw [this, Nat.mul_zero, List.take_zero, chunksExact_nil,
        chunksExact_short k l (by omega)]

theorem removeAt_next (h : Heap) (p : Nat) : (removeAt h p).next = h.next := rfl

theorem filterKinds_ok_shape {h : Heap} {fp : Nat} {b : FilterB} (bytes : List Nat)
    (hfp : fp ≠ 0) (hobj : h.objs fp = some (.fbuilder b)) :
    Java_xyz_tcheeric_nostrdb_NostrdbNative_filterKinds h fp (.ok bytes)
      = (.ret h.next none,
         (box_to_ptr (removeAt h fp) (.fbuilder (b ++ [.kinds (decodeKinds bytes)]))).2) := by
  simp only [Java_xyz_tcheeric_nostrdb_NostrdbNative_filterKinds, with_exceptionS,
    bind_apply, takeBuilderS_pos hfp hobj, liftR, java_bytes_to_rust, box_to_ptrS,
    box_to_ptr, removeAt_next]

theorem filterAuthors_ok_shape {h : Heap} {fp : Nat} {b : FilterB} (bytes : List Nat)
    (hfp : fp ≠ 0) (hobj : h.objs fp = some (.fbuilder b)) :
    Java_xyz_tcheeric_nostrdb_NostrdbNative_filterAuthors h fp (.ok bytes)
      = (.ret h.next none,
         (box_to_ptr (removeAt h fp) (.fbuilder (b ++ [.authors (decodeAuthors bytes)]))).2) := by
  simp only [Java_xyz_tcheeric_nostrdb_NostrdbNative_filterAuthors, with_exceptionS,
    bind_apply, takeBuilderS_pos hfp hobj, liftR, java_bytes_to_rust, box_to_ptrS,
    box_to_ptr, removeAt_next]

/-- C10: a byte input to filterKinds (chunk size 4) or filterAuthors
(chunk size 32) whose length is not a multiple of the chunk size has its
trailing partial chunk silently discarded: the decoded list equals the one
obtained from the longest whole-chunk prefix, the operation raises no
error (the outcome is a normal return with no exception), and the entire
result — new handle, heap, builder state — is identical to running the
operation on the truncated input. -/
theorem C10_partial_chunk_truncation :
    (∀ (bytes : List Nat),
      decodeKinds bytes = decodeKinds (bytes.take (4 * (bytes.length / 4))))
  ∧ (∀ (bytes : List Nat),
      decodeAuthors bytes = decodeAuthors (bytes.take (32 * (bytes.length / 32))))
  ∧ (∀ (h : Heap) fp b (bytes : List Nat), fp ≠ 0 → h.objs fp = some (.fbuilder b) →
      bytes.length % 4 ≠ 0 →
      Java_xyz_tcheeric_nostrdb_NostrdbNative_filterKinds h fp (.ok bytes)
        = Java_xyz_tcheeric_nostrdb_NostrdbNative_filterKinds h fp
            (.ok (bytes.take (4 * (bytes.length / 4))))
      ∧ Java_xyz_tcheeric_nostrdb_NostrdbNative_filterKinds h fp (.ok bytes)
        = (.ret h.next none,
           (box_to_ptr (removeAt h fp)
             (.fbuilder (b ++ [.kinds (decodeKinds bytes)]))).2))
  ∧ (∀ (h : Heap) fp b (bytes : List Nat), fp ≠ 0 → h.objs fp = some (.fbuilder b) →
      bytes.length % 32 ≠ 0 →
      Java_xyz_tcheeric_nostrdb_NostrdbNative_filterAuthors h fp (.ok bytes)
        = Java_xyz_tcheeric_nostrdb_NostrdbNative_filterAuthors h fp
            (.ok (bytes.take (32 * (bytes.length / 32))))
      ∧ Java_xyz_tcheeric_nostrdb_NostrdbNative_filterAuthors h fp (.ok bytes)
        = (.ret h.next none,
           (box_to_ptr (removeAt h fp)
             (.fbuilder (b ++ [.authors (decodeAuthors bytes)]))).2)) := by
  have hk4 : ∀ (bytes : List Nat),
      decodeKinds bytes = decodeKinds (bytes.take (4 * (bytes.length / 4))) := by
    intro bytes
    unfold decodeKinds
    rw [chunksExact_take 4 (by omega) bytes.length bytes le_rfl]
  have hk32 : ∀ (bytes : List Nat),
      decodeAuthors bytes = decodeAuthors (bytes.take (32 * (bytes.length / 32))) := by
    intro bytes
    unfold decodeAuthors
    rw [chunksExact_take 32 (by omega) bytes.length bytes le_rfl]
  refine ⟨hk4, hk32, ?_, ?_⟩
  · intro h fp b bytes hfp hobj hmod
    refine ⟨?_, filterKinds_ok_shape bytes hfp hobj⟩
    rw [filterKinds_ok_shape bytes hfp hobj, filterKinds_ok_shape _ hfp hobj, ← hk4]
  · intro h fp b bytes hfp hobj hmod
    refine ⟨?_, filterAuthors_ok_shape bytes hfp hobj⟩
    rw [filterAuthors_ok_shape bytes hfp hobj, filterAuthors_ok_shape _ hfp hobj, ← hk32]

/-- C10 witness: the five-byte kinds input 01 00 00 00 05 (one whole
chunk plus one stray byte) behaves exactly like its four-byte prefix:
kind list [1], no error. -/
theorem C10_partial_chunk_truncation_wit :
    decodeKinds [1, 0, 0, 0, 5] = [1]
    ∧ Java_xyz_tcheeric_nostrdb_NostrdbNative_filterKinds heapW 3 (.ok [1, 0, 0, 0, 5])
      = Java_xyz_tcheeric_nostrdb_NostrdbNative_filterKinds heapW 3 (.ok [1, 0, 0, 0]) := by
  have hc := (C10_partial_chunk_truncation.2.2.1 heapW 3 [] [1, 0, 0, 0, 5]
    (by decide) (by decide) (by decide)).1
  refine ⟨?_, hc⟩
  rw [C10_partial_chunk_truncation.1 [1, 0, 0, 0, 5]]
  show decodeKinds [1, 0, 0, 0] = [1]
  unfold decodeKinds
  rw [chunksExact_cons 4 [1, 0, 0, 0] (by omega) (by simp),
    show List.drop 4 [1, 0, 0, 0] = ([] : List Nat) from rfl, chunksExact_nil]
  rfl

theorem decodeAll_error (m : String) (rest : List JStringF) :
    ∀ (ss : List String),
      decodeAll ((ss.map Except.ok) ++ .error m :: rest) = .err (.Jni m) := by
  intro ss
  induction ss with
  | nil => rfl
  | cons s ss ih =>
    simp only [List.map_cons, List.cons_append, decodeAll, java_string_to_rust,
      res_bind_apply, Res.bind, List.append_eq, ih]

/-- C8 counterexample: the claim says a malformed tag value fails with
InvalidEncoding.  It is false: the element is decoded by
java_string_to_rust, whose failure is Error::Jni (generic
RuntimeException), never Error::InvalidUtf8; here a malformed element
raises the Jni error. -/
theorem C8_cex_filterTag_error_kind :
    (Java_xyz_tcheeric_nostrdb_NostrdbNative_filterTag heapW 3 (.ok "e")
        [.error "bad"]).1
      = BOutcome.ret 3 (some (.exc (.Jni "bad")))
    ∧ ¬ raisesInvalidEncoding
        (Java_xyz_tcheeric_nostrdb_NostrdbNative_filterTag heapW 3 (.ok "e")
          [.error "bad"]).1 := by
  refine ⟨rfl, ?_⟩
  rintro ⟨v, m, hx⟩
  rw [show (Java_xyz_tcheeric_nostrdb_NostrdbNative_filterTag heapW 3 (.ok "e")
        [.error "bad"]).1
      = BOutcome.ret 3 (some (.exc (.Jni "bad"))) from rfl] at hx
  simp at hx

/-- C8 amended: with a non-null valid builder handle, filterTag fails with
FilterBuildFailure (Error::Filter "Empty tag name", a library-specific
NostrdbException) when the tag-name string is empty; otherwise exactly the
first character of the tag name becomes the tag key; each element of the
value sequence is decoded by the same java_string_to_rust used for scalar
strings, so a malformed element fails with that routine's Jni marshaling
error (a generic runtime error), not with InvalidEncoding. -/
theorem C8_amended_filterTag :
    (∀ (h : Heap) fp b (tvs : List JStringF), fp ≠ 0 →
      h.objs fp = some (.fbuilder b) →
      Java_xyz_tcheeric_nostrdb_NostrdbNative_filterTag h fp (.ok "") tvs
        = (.ret fp (some (.exc (.Filter "Empty tag name"))), removeAt h fp))
  ∧ (∀ m, Error.exception_class (.Filter m) = "xyz/tcheeric/nostrdb/NostrdbException")
  ∧ (∀ (h : Heap) fp b (s : String) c cs (tvs : List JStringF) (vals : List String),
      fp ≠ 0 → h.objs fp = some (.fbuilder b) → s.toList = c :: cs →
      decodeAll tvs = .ok vals →
      Java_xyz_tcheeric_nostrdb_NostrdbNative_filterTag h fp (.ok s) tvs
        = (.ret h.next none,
           (box_to_ptr (removeAt h fp) (.fbuilder (b ++ [.tags vals c]))).2))
  ∧ (∀ (h : Heap) fp b (s : String) c cs (ss : List String) (m : String)
      (rest : List JStringF),
      fp ≠ 0 → h.objs fp = some (.fbuilder b) → s.toList = c :: cs →
      Java_xyz_tcheeric_nostrdb_NostrdbNative_filterTag h fp (.ok s)
          ((ss.map Except.ok) ++ .error m :: rest)
        = (.ret fp (some (.exc (.Jni m))), removeAt h fp)
      ∧ java_string_to_rust (.error m) = .err (.Jni m)) := by
  refine ⟨?_, fun m => rfl, ?_, ?_⟩
  · intro h fp b tvs hfp hobj
    simp only [Java_xyz_tcheeric_nostrdb_NostrdbNative_filterTag, with_exceptionS,
      bind_apply, takeBuilderS_pos hfp hobj, liftR, java_string_to_rust,
      show "".toList = ([] : List Char) from rfl]
  · intro h fp b s c cs tvs vals hfp hobj hs hvals
    simp only [Java_xyz_tcheeric_nostrdb_NostrdbNative_filterTag, with_exceptionS,
      bind_apply, takeBuilderS_pos hfp hobj, liftR, java_string_to_rust, hs, hvals,
      box_to_ptrS, box_to_ptr, removeAt_next]
  · intro h fp b s c cs ss m rest hfp hobj hs
    refine ⟨?_, rfl⟩
    simp only [Java_xyz_tcheeric_nostrdb_NostrdbNative_filterTag, with_exceptionS,
      bind_apply, takeBuilderS_pos hfp hobj, liftR, java_string_to_rust, hs,
      decodeAll_error]

/-- C8 witness: on the concrete heap, an empty tag name yields the Filter
error; tag name e with values v1 v2 produces the builder extended with the
tag transition keyed by the character e; a malformed second element yields
the Jni error. -/
theorem C8_amended_filterTag_wit :
    Java_xyz_tcheeric_nostrdb_NostrdbNative_filterTag heapW 3 (.ok "") []
      = (.ret 3 (some (.exc (.Filter "Empty tag name"))), removeAt heapW 3)
    ∧ Java_xyz_tcheeric_nostrdb_NostrdbNative_filterTag heapW 3 (.ok "e")
        [.ok "v1", .ok "v2"]
      = (.ret heapW.next none,
         (box_to_ptr (removeAt heapW 3)
           (.fbuilder [.tags ["v1", "v2"] 'e'])).2)
    ∧ Java_xyz_tcheeric_nostrdb_NostrdbNative_filterTag heapW 3 (.ok "e")
        [.ok "v", .error "bad"]
      = (.ret 3 (some (.exc (.Jni "bad"))), removeAt heapW 3) := by
  refine ⟨C8_amended_filterTag.1 heapW 3 [] [] (by decide) (by decide), ?_, ?_⟩
  · exact C8_amended_filterTag.2.2.1 heapW 3 [] "e" 'e' [] [.ok "v1", .ok "v2"]
      ["v1", "v2"] (by decide) (by decide) rfl rfl
  · exact (C8_amended_filterTag.2.2.2 heapW 3 [] "e" 'e' [] ["v"] "bad" []
      (by decide) (by decide) rfl).1

end NostrdbJni
